import Mathlib

/-!
Verification development for the Agentic-Networks-Incident-Copilot repository.

The Python source is shallowly embedded in Lean 4:
  * pure functions become Lean functions on `String`, `ℚ`, `List`, `Option`;
  * the mutable `IncidentState` TypedDict becomes a structure threaded
    explicitly through the node / helper functions (absent keys are `none`);
  * external collaborators (the diagnosis oracle, the Bedrock ranking oracle,
    the command generator, the execution backend, wall-clock time) are
    parameters of the model, mirroring the spec's treatment of them as opaque;
  * Python floats are modelled as rationals, and Python's `in` / `.lower()`
    string operations are modelled by executable character-list functions.
-/

namespace IncidentCopilot

/-! ## String helpers

Executable models of the Python string operations used by the source:
`needle in haystack` (substring test) and `s.lower()`. We use character
lists so that the functions reduce inside the kernel. -/

/-- Substring test on character lists: does `needle` occur inside the list? -/
def isSubstrAux (needle : List Char) : List Char → Bool
  | [] => needle.isEmpty
  | c :: t => needle.isPrefixOf (c :: t) || isSubstrAux needle t

/-- Python `needle in hay` for strings. -/
def strContains (hay needle : String) : Bool :=
  isSubstrAux needle.data hay.data

/-- Python `s.lower()` (ASCII lowering suffices for all strings in the source). -/
def strLower (s : String) : String :=
  ⟨s.data.map Char.toLower⟩

/-- Python `" ".join(xs)`. -/
def joinSpace : List String → String
  | [] => ""
  | [s] => s
  | s :: rest => s ++ " " ++ joinSpace rest

/-- Python string truthiness (`if s:`): `None` and `""` are falsy.
Used where the source guards on an optional string being non-empty. -/
def pyTruthy : Option String → Option String
  | some "" => none
  | x => x

/-! ## Candidate catalog (`app/playbooks/playbook_library.py`)

Only the fields consulted by the scoring engine and by the workflow are
embedded.  The purely presentational free-text fields of `Playbook`
(`description`, `prerequisites`, `commands_template`, `verification_steps`,
`rollback_procedure`, `when_to_use`, `when_not_to_use`, `estimated_impact`,
`success_indicators`) are omitted: no logic in the source reads them. -/

structure Playbook where
  id : String
  name : String
  root_causes : List String
  risk_level : String
  time_to_effect : String
  cost : String
  typical_success_rate : ℚ
  deriving DecidableEq

def PLAYBOOK_QOS_SHAPING : Playbook :=
  ⟨"qos_traffic_shaping", "QoS Traffic Shaping",
   ["congestion", "high_latency", "packet_loss"],
   "LOW", "10 minutes", "FREE", 0.85⟩

def PLAYBOOK_TRAFFIC_OFFLOAD : Playbook :=
  ⟨"partial_traffic_offload", "Partial Traffic Offload",
   ["congestion", "high_latency"],
   "MEDIUM", "2 minutes", "FREE", 0.78⟩

def PLAYBOOK_CONFIG_ROLLBACK : Playbook :=
  ⟨"config_rollback", "Configuration Rollback",
   ["config_change", "routing_issue", "degradation_after_change"],
   "LOW", "1 minute", "FREE", 0.92⟩

def PLAYBOOK_HARDWARE_REPLACE : Playbook :=
  ⟨"hardware_diagnostics_replace", "Hardware Diagnostics & Replacement",
   ["hardware_failure", "interface_errors", "line_card_failure"],
   "HIGH", "15-30 minutes (diagnostics) or 2-4 hours (replacement)",
   "HIGH (replacement hardware cost)", 0.88⟩

def PLAYBOOK_ROUTE_REDISTRIBUTION : Playbook :=
  ⟨"route_redistribution", "Route Redistribution & Path Optimization",
   ["routing_issue", "suboptimal_path", "route_flap"],
   "MEDIUM", "2-5 minutes", "FREE", 0.81⟩

def PLAYBOOK_EMERGENCY_CAPACITY : Playbook :=
  ⟨"emergency_capacity_upgrade", "Emergency Capacity Upgrade",
   ["persistent_congestion", "capacity_exhaustion"],
   "HIGH", "30 minutes - 4 hours (depending on provider)",
   "HIGH (bandwidth cost increases)", 0.95⟩

/-- Catalog declaration order (`ALL_PLAYBOOKS`). -/
def ALL_PLAYBOOKS : List Playbook :=
  [PLAYBOOK_QOS_SHAPING, PLAYBOOK_TRAFFIC_OFFLOAD, PLAYBOOK_CONFIG_ROLLBACK,
   PLAYBOOK_HARDWARE_REPLACE, PLAYBOOK_ROUTE_REDISTRIBUTION,
   PLAYBOOK_EMERGENCY_CAPACITY]

/-- `get_playbooks_for_root_cause`: playbooks whose `root_causes` contain the
given cause, case-insensitively, in catalog order. -/
def get_playbooks_for_root_cause (root_cause : String) : List Playbook :=
  ALL_PLAYBOOKS.filter
    (fun pb => (pb.root_causes.map strLower).contains (strLower root_cause))

/-! ## Rule-based scoring (`app/agents/recommendation_engine.py`) -/

/-- `self.risk_scores.get(playbook.risk_level, 0.5)`. -/
def risk_score_of (risk : String) : ℚ :=
  if risk = "LOW" then 1 else if risk = "MEDIUM" then 0.7
  else if risk = "HIGH" then 0.4 else if risk = "CRITICAL" then 0.2 else 0.5

/-- `self.cost_scores.get(playbook.cost, 0.5)`. -/
def cost_score_of (cost : String) : ℚ :=
  if cost = "FREE" then 1 else if cost = "LOW" then 0.9
  else if cost = "MEDIUM" then 0.6 else if cost = "HIGH" then 0.3 else 0.5

/-- `RecommendationEngine._time_to_score`: digit-substring bucketing of the
time-to-effect string. -/
def time_to_score (time_str : String) : ℚ :=
  let t := strLower time_str
  if strContains t "minute" then
    if strContains t "1" || strContains t "2" then 1
    else if strContains t "5" || strContains t "10" then 0.8
    else if strContains t "15" || strContains t "30" then 0.6
    else 0.5
  else if strContains t "hour" then
    if strContains t "1" || strContains t "2" then 0.4 else 0.2
  else 0.5

/-- Factor 1 of `_score_playbook`: exact cause match scores `1.0`; the
congestion/latency partial-match heuristic scores `0.5`; otherwise `0`. -/
def cause_match_score (pb : Playbook) (root_cause : String) : ℚ :=
  if (pb.root_causes.map strLower).contains (strLower root_cause) then 1
  else if strContains (strLower root_cause) "congestion"
      && strContains (strLower (joinSpace pb.root_causes)) "latency" then 0.5
  else 0

/-- The weighted sum of `_score_playbook` before the uncertainty penalty.
The `context` argument of the source is unused by the scoring logic and is
therefore not a parameter here. -/
def base_score (pb : Playbook) (root_cause : String) : ℚ :=
  cause_match_score pb root_cause * 0.40
    + risk_score_of pb.risk_level * 0.25
    + time_to_score pb.time_to_effect * 0.15
    + cost_score_of pb.cost * 0.10
    + pb.typical_success_rate * 0.10

/-- `RecommendationEngine._score_playbook`, including the uncertainty
penalty (`score *= 0.7` for HIGH/CRITICAL risk when `confidence < 0.7`). -/
def score_playbook (pb : Playbook) (root_cause : String) (confidence : ℚ) : ℚ :=
  let s := base_score pb root_cause
  if confidence < 0.7 ∧ (pb.risk_level = "HIGH" ∨ pb.risk_level = "CRITICAL")
  then s * 0.7 else s

/-! ## Ranking (`RecommendationEngine.recommend`)

Python's `scored.sort(key=lambda x: x["score"], reverse=True)` is a stable
descending sort.  We model it by a stable descending insertion sort over
candidates tagged with their position (`idx`) in the candidate list — the
tag records catalog declaration order so that stability can be stated. -/

structure ScoredCandidate where
  idx : ℕ
  pb : Playbook
  score : ℚ
  deriving DecidableEq

/-- Tag each candidate with its position and its rule-based score. -/
def with_scores (root_cause : String) (confidence : ℚ) :
    List Playbook → ℕ → List ScoredCandidate
  | [], _ => []
  | p :: t, i => ⟨i, p, score_playbook p root_cause confidence⟩ :: with_scores root_cause confidence t (i + 1)

/-- Insert into a descending-sorted list, before the first strictly smaller
score (so that, processed right-to-left, earlier elements precede equal
scores — the behaviour of Python's stable sort). -/
def insertDesc (x : ScoredCandidate) : List ScoredCandidate → List ScoredCandidate
  | [] => [x]
  | y :: ys => if y.score ≤ x.score then x :: y :: ys else y :: insertDesc x ys

/-- Stable descending sort by score. -/
def sortDesc : List ScoredCandidate → List ScoredCandidate
  | [] => []
  | x :: xs => insertDesc x (sortDesc xs)

/-- The candidate list of `recommend`: matching playbooks, or the full
catalog if none matches. -/
def candidates_for (root_cause : String) : List Playbook :=
  let m := get_playbooks_for_root_cause root_cause
  if m.isEmpty then ALL_PLAYBOOKS else m

/-- The sorted scored candidate list built by `recommend`. -/
def ranked_candidates (root_cause : String) (confidence : ℚ) : List ScoredCandidate :=
  sortDesc (with_scores root_cause confidence (candidates_for root_cause) 0)

/-- One entry of the `options` list of the engine output.  The raw score is
kept (Python rounds it to two decimals for display, a monotone operation);
the presentational `description` / `when_to_use` / `reasoning` strings are
omitted.  The five trailing fields are the keys added by the hybrid engine
(`none` when the key is absent). -/
structure RecOption where
  rank : ℕ
  id : String
  name : String
  risk_level : String
  time_to_effect : String
  cost : String
  score : ℚ
  success_rate : String
  ai_score : Option ℚ
  ai_reasoning : Option String
  rule_based_score : Option ℚ
  hybrid_approach : Option String
  ai_recommendation_reasoning : Option String
  deriving DecidableEq

/-- `f"{int(rate*100)}%"`. -/
def success_rate_str (r : ℚ) : String :=
  toString (Int.floor (r * 100)) ++ "%"

/-- Format one ranked candidate as an output option. -/
def mk_option (rank : ℕ) (sc : ScoredCandidate) : RecOption :=
  ⟨rank, sc.pb.id, sc.pb.name, sc.pb.risk_level, sc.pb.time_to_effect,
   sc.pb.cost, sc.score, success_rate_str sc.pb.typical_success_rate,
   none, none, none, none, none⟩

/-- Assign ranks `r, r+1, …` to a list of sorted candidates (the
`enumerate(top_recommendations)` loop of the source). -/
def rank_with : List ScoredCandidate → ℕ → List RecOption
  | [], _ => []
  | c :: t, r => mk_option r c :: rank_with t (r + 1)

/-- The dict returned by `recommend` / `HybridRecommendationEngine.recommend`.
`ranking_method` and `fallback_used` are keys only the hybrid layer adds,
hence `Option`. -/
structure RecResult where
  root_cause : String
  confidence : ℚ
  recommended : Option String
  options : List RecOption
  total_candidates : ℕ
  ranking_method : Option String
  fallback_used : Option Bool
  deriving DecidableEq

/-- `RecommendationEngine.recommend` (rule-based ranking).  The unused
`incident_context` argument is dropped. -/
def recommend (root_cause : String) (confidence : ℚ) (top_n : ℕ) : RecResult :=
  let ranked := ranked_candidates root_cause confidence
  let top := ranked.take top_n
  { root_cause := root_cause
    confidence := confidence
    recommended := top.head?.map (fun sc => sc.pb.id)
    options := rank_with top 1
    total_candidates := (candidates_for root_cause).length
    ranking_method := none
    fallback_used := none }

/-! ## Hybrid engine (`app/agents/hybrid_recommendation_engine.py`)

The AWS Bedrock call and the JSON parser are external collaborators: the
model receives the call's outcome (`Except` for a raised exception) and the
parser as parameters.  `_extract_json_from_text` returns a default
empty-rankings structure when no JSON object can be parsed from the text. -/

/-- One element of the `rankings` array of the oracle's JSON reply; JSON keys
may be missing, hence `Option`. -/
structure AIRanking where
  playbook_id : Option String
  score : Option ℚ
  reasoning : Option String
  deriving DecidableEq

/-- The parsed JSON reply of the ranking oracle. -/
structure AIJson where
  rankings : List AIRanking
  recommendation_reasoning : Option String
  deriving DecidableEq

/-- `HybridRecommendationEngine._extract_json_from_text`: parse the JSON
object out of the reply text, or return the default empty structure. -/
def extract_json_from_text (parse : String → Option AIJson) (text : String) : AIJson :=
  (parse text).getD ⟨[], some "Failed to parse AI response"⟩

/-- The candidate-rewriting loop of `_ai_rerank`: for each oracle ranking
whose `playbook_id` names a known candidate, copy that candidate, attach the
AI score/reasoning, keep the rule-based score, and use the AI score as the
primary score. -/
def ai_rerank_loop (candidates : List RecOption) : List AIRanking → List RecOption
  | [] => []
  | r :: rest =>
    let tail := ai_rerank_loop candidates rest
    match r.playbook_id with
    | none => tail
    | some pid =>
      match candidates.find? (fun c => c.id = pid) with
      | none => tail
      | some c =>
        { c with
          ai_score := some (r.score.getD 0)
          ai_reasoning := some (r.reasoning.getD "")
          rule_based_score := some c.score
          score := r.score.getD c.score } :: tail

/-- `HybridRecommendationEngine._ai_rerank` applied to an already-parsed
oracle reply: rewrite candidates in oracle order and attach the overall
reasoning to the head of the result. -/
def ai_rerank (ai : AIJson) (candidates : List RecOption) : List RecOption :=
  match ai_rerank_loop candidates ai.rankings with
  | [] => []
  | h :: t =>
    { h with ai_recommendation_reasoning := some (ai.recommendation_reasoning.getD "") } :: t

/-- External-collaborator parameters of the hybrid engine: whether the
Bedrock client was constructed, the `USE_AI_RANKING` feature flag, the
outcome of the oracle call (exception or reply text), and the JSON parser. -/
structure HybridEnv where
  client_available : Bool
  use_ai_config : Bool
  ai_call : Except String String
  parse : String → Option AIJson

/-- The shared tail of `HybridRecommendationEngine.recommend`: return the
rule-based result truncated to `top_n`, with `fallback_used` recording
whether AI was supposed to run. -/
def rule_only_result (rule : RecResult) (top_n : ℕ) (should_use_ai : Bool) : RecResult :=
  { rule with
    options := rule.options.take top_n
    ranking_method := some "rule-based only"
    fallback_used := some should_use_ai }

/-- `HybridRecommendationEngine.recommend`: rule-based scoring of the top 5,
then an optional AI re-ranking pass with exception fallback. -/
def hybrid_recommend (env : HybridEnv) (root_cause : String) (confidence : ℚ)
    (top_n : ℕ) (use_ai : Option Bool) : RecResult :=
  let rule := recommend root_cause confidence 5
  let should_use_ai := use_ai.getD env.use_ai_config
  if should_use_ai && env.client_available && decide (1 < rule.options.length) then
    match env.ai_call with
    | .error _ => rule_only_result rule top_n should_use_ai
    | .ok text =>
      let ai_json := extract_json_from_text env.parse text
      let ranked := (ai_rerank ai_json rule.options).map
        (fun o => { o with hybrid_approach := some "rule_based + ai_reranked" })
      { root_cause := root_cause
        confidence := confidence
        recommended := ranked.head?.map (fun o => o.id)
        options := ranked.take top_n
        total_candidates := rule.total_candidates
        ranking_method := some "hybrid (rule-based + AI)"
        fallback_used := some false }
  else rule_only_result rule top_n should_use_ai

/-! ## Policy gate (`app/policy.py`)

The `CandidateOption`, `Policy` and `Prices` models are imported by
`policy.py` from `app.models`, whose snapshot in the repository no longer
declares them; the record shapes below carry exactly the fields `check`
reads (plus those constructed by `rank_playbooks`).  Python formats the two
violation messages with f-strings; the embedded messages concatenate
`toString` of the rational values (the source renders floats, `.2f` for the
cost), which preserves the "both values appear in the message" content. -/

structure CandidateOption where
  id : String
  kind : String
  eta_minutes : ℚ
  pred_latency_ms : ℚ
  pred_loss_pct : ℚ
  risk : String
  euro_delta : ℚ
  deriving DecidableEq

structure Policy where
  latency_target_ms : ℚ
  max_burst_cost_per_hr_eur : ℚ
  deriving DecidableEq

/-- Pricing data; `check` never reads it. -/
structure Prices where
  prices_eur : List (String × ℚ)
  deriving DecidableEq

structure PolicyVerdict where
  ok : Bool
  reasons : List String
  deriving DecidableEq

/-- The latency-violation reason string of `check`. -/
def latency_violation_msg (pred target : ℚ) : String :=
  "Predicted latency " ++ toString pred ++ "ms exceeds target " ++ toString target ++ "ms"

/-- The burst-cost-violation reason string of `check`. -/
def burst_cost_violation_msg (cost budget : ℚ) : String :=
  "Burst cost €" ++ toString cost ++ "/hr exceeds budget €" ++ toString budget ++ "/hr"

/-- `policy.check`: evaluate both rules independently, collect reasons in
order, and report `ok` iff no reason was collected. -/
def check (candidate : CandidateOption) (policy : Policy) (_prices : Prices) : PolicyVerdict :=
  let reasons :=
    (if policy.latency_target_ms < candidate.pred_latency_ms then
      [latency_violation_msg candidate.pred_latency_ms policy.latency_target_ms]
     else [])
    ++
    (if candidate.kind = "burst_capacity" ∧ policy.max_burst_cost_per_hr_eur < candidate.euro_delta then
      [burst_cost_violation_msg candidate.euro_delta policy.max_burst_cost_per_hr_eur]
     else [])
  ⟨reasons.isEmpty, reasons⟩

/-! ## Workflow state (`app/langgraph_orchestrator/state.py`)

The `IncidentState` TypedDict (`total=False`) becomes a structure; keys that
the source may leave absent are `Option` (with `none` for "key absent").
`execution_retry_count` is an extra key written by the routing layer and
always read with default `0`, so it is a plain `ℕ`.  Wall-clock timestamps
(`datetime.utcnow()`) and durations are passed in explicitly. -/

structure IncidentData where
  hot_path : String
  latency_current : ℚ
  latency_baseline : ℚ
  loss_current : ℚ
  loss_baseline : ℚ
  utilization : List (String × ℚ)
  recent_changes : List String
  priority : Option String
  deriving DecidableEq

/-- The diagnosis payload stored by `diagnose_node`. -/
structure DiagnosisResult where
  root_cause : String
  confidence : ℚ
  reasoning : String
  contradicting_signals : List String
  deriving DecidableEq

/-- The commands payload of `generate_commands_node` (the generated command
strings, plus the `error` key set on failure; verification/rollback text is
presentational and omitted). -/
structure CommandsGen where
  commands : List String
  error : Option String
  deriving DecidableEq

/-- The execution payload of `execute_commands_node`. -/
structure ExecutionResult where
  status : String
  message : Option String
  commands_executed : Option ℕ
  verification_passed : Option Bool
  metrics_improved : Option Bool
  error : Option String
  deriving DecidableEq

/-- The heterogeneous `result` snapshots recorded in history entries, one
constructor per node that records one. -/
inductive ResultSnapshot where
  | diag (d : DiagnosisResult)
  | recs (count : ℕ) (top_recommendation : Option RecOption)
  | cmds (playbook_id : String) (command_count : ℕ)
  | exec (r : ExecutionResult)
  | rca (report_length : ℕ)
  deriving DecidableEq

structure HistoryEntry where
  step : String
  timestamp : String
  duration_ms : Option ℕ
  result : Option ResultSnapshot
  deriving DecidableEq

structure ApprovalEntry where
  step : String
  approved : Bool
  timestamp : String
  approved_by : Option String
  feedback : Option String
  deriving DecidableEq

structure ErrorEntry where
  step : String
  error : String
  timestamp : String
  retry_attempt : Option ℕ
  deriving DecidableEq

structure IncidentState where
  incident_id : String
  incident_data : IncidentData
  diagnosis : Option DiagnosisResult
  diagnosis_confidence : Option ℚ
  diagnosis_approved : Bool
  diagnosis_feedback : Option String
  recommendations : Option (List RecOption)
  selected_playbook_id : Option String
  recommendation_reasoning : Option String
  commands : Option CommandsGen
  commands_approved : Bool
  commands_feedback : Option String
  execution_result : Option ExecutionResult
  execution_status : Option String
  execution_timestamp : Option String
  rca_report : Option String
  rca_generated_at : Option String
  current_step : Option String
  workflow_status : Option String
  retry_count : ℕ
  execution_retry_count : ℕ
  approvals : Option (List ApprovalEntry)
  history : Option (List HistoryEntry)
  errors : Option (List ErrorEntry)
  created_at : Option String
  updated_at : Option String
  created_by : Option String
  priority : Option String
  tags : Option (List String)
  deriving DecidableEq

/-- `create_initial_state`. -/
def create_initial_state (incident_id : String) (incident_data : IncidentData)
    (created_by : Option String) (priority : String) (now : String) : IncidentState :=
  { incident_id := incident_id
    incident_data := incident_data
    diagnosis := none
    diagnosis_confidence := none
    diagnosis_approved := false
    diagnosis_feedback := none
    recommendations := none
    selected_playbook_id := none
    recommendation_reasoning := none
    commands := none
    commands_approved := false
    commands_feedback := none
    execution_result := none
    execution_status := none
    execution_timestamp := none
    rca_report := none
    rca_generated_at := none
    current_step := some "start"
    workflow_status := some "running"
    retry_count := 0
    execution_retry_count := 0
    approvals := some []
    history := some []
    errors := some []
    created_at := some now
    updated_at := some now
    created_by := created_by
    priority := some priority
    tags := some [] }

/-- `update_state_timestamp`. -/
def update_state_timestamp (now : String) (s : IncidentState) : IncidentState :=
  { s with updated_at := some now }

/-- `add_history_entry`: append one entry (creating the list when the key is
absent) and refresh `updated_at`. -/
def add_history_entry (now : String) (s : IncidentState) (step : String)
    (duration_ms : Option ℕ) (result : Option ResultSnapshot) : IncidentState :=
  update_state_timestamp now
    { s with history := some (s.history.getD [] ++ [⟨step, now, duration_ms, result⟩]) }

/-- `add_approval`: append one approval record; `approved_by` / `feedback`
keys are added only when truthy. -/
def add_approval (now : String) (s : IncidentState) (step : String) (approved : Bool)
    (approved_by feedback : Option String) : IncidentState :=
  let entry : ApprovalEntry := ⟨step, approved, now, pyTruthy approved_by, pyTruthy feedback⟩
  update_state_timestamp now
    { s with approvals := some (s.approvals.getD [] ++ [entry]) }

/-- `add_error`: append one error record; `retry_attempt` key added only when
the argument is not `None`. -/
def add_error (now : String) (s : IncidentState) (step : String) (error : String)
    (retry_attempt : Option ℕ) : IncidentState :=
  update_state_timestamp now
    { s with errors := some (s.errors.getD [] ++ [⟨step, error, now, retry_attempt⟩]) }

/-! ## Routing (`app/langgraph_orchestrator/routing.py`) -/

/-- `route_after_diagnosis_review`. -/
def route_after_diagnosis_review (s : IncidentState) : String :=
  if s.diagnosis_approved then "approved"
  else
    let feedback := strLower (s.diagnosis_feedback.getD "")
    if strContains feedback "retry" || strContains feedback "again" then "retry"
    else "stop"

/-- `route_after_commands_review`. -/
def route_after_commands_review (s : IncidentState) : String :=
  if s.commands_approved then "execute"
  else
    let feedback := strLower (s.commands_feedback.getD "")
    if strContains feedback "modify" || strContains feedback "change" || strContains feedback "different" then "modify"
    else "stop"

/-- `route_after_execution`.  The source mutates `execution_retry_count`
inside the routing function, so the model returns the updated state together
with the chosen route. -/
def route_after_execution (s : IncidentState) : IncidentState × String :=
  let execution_status := s.execution_status.getD "unknown"
  if execution_status = "success" then (s, "rca")
  else if execution_status = "partial" then (s, "rca")
  else if execution_status = "failed" then
    let retry_count := s.execution_retry_count
    if retry_count < 2 then ({ s with execution_retry_count := retry_count + 1 }, "retry")
    else (s, "stop")
  else (s, "rca")

/-! ## Nodes (`app/langgraph_orchestrator/nodes.py`)

Each node takes the outcome of its external call as an `Except` (an
exception in the source lands in the node's `except` branch), plus the
ambient timestamp and measured duration. -/

/-- `diagnose_node`.  The construction of the `signals` / `change_context`
dictionaries handed to the opaque diagnosis oracle does not influence the
state transition, which depends only on the oracle's outcome. -/
def diagnose_node (outcome : Except String DiagnosisResult) (now : String)
    (duration_ms : ℕ) (s : IncidentState) : IncidentState :=
  let s := { s with current_step := some "diagnose" }
  match outcome with
  | .ok d =>
    let s := { s with diagnosis := some d, diagnosis_confidence := some d.confidence }
    add_history_entry now s "diagnose" (some duration_ms) (some (.diag d))
  | .error e =>
    let s := add_error now s "diagnose" e (some s.retry_count)
    let s := { s with retry_count := s.retry_count + 1 }
    if 3 ≤ s.retry_count then
      { s with
        diagnosis := some ⟨"unknown", 0.3,
          "AI diagnosis failed after 3 retries. Error: " ++ e ++ ". Using fallback.", []⟩
        diagnosis_confidence := some 0.3
        retry_count := 0 }
    else s

/-- `recommend_node`: run the hybrid engine (with `use_ai=True`) on the
diagnosed cause and record the ranked options.  The engine model is total,
so the node's `except` branch is unreachable here. -/
def recommend_node (env : HybridEnv) (now : String) (duration_ms : ℕ)
    (s : IncidentState) : IncidentState :=
  let s := { s with current_step := some "recommend" }
  let root_cause := match s.diagnosis with | some d => d.root_cause | none => "unknown"
  let confidence := match s.diagnosis with | some d => d.confidence | none => 0.5
  let result := hybrid_recommend env root_cause confidence 3 (some true)
  let recs := result.options
  let root_cause_shown := match s.diagnosis with | some d => d.root_cause | none => "None"
  let s := { s with
    recommendations := some recs
    recommendation_reasoning :=
      some ("Ranked " ++ toString recs.length ++ " playbooks for root cause: " ++ root_cause_shown) }
  let s :=
    if 0.85 < s.diagnosis_confidence.getD 0 ∧ recs ≠ [] then
      { s with selected_playbook_id := recs.head?.map (fun o => o.id) }
    else s
  add_history_entry now s "recommend" (some duration_ms) (some (.recs recs.length recs.head?))

/-- The `except` branch of `generate_commands_node`. -/
def generate_commands_fail (now : String) (e : String) (s : IncidentState) : IncidentState :=
  let s := add_error now s "generate_commands" e none
  { s with commands := some ⟨[], some e⟩ }

/-- `generate_commands_node`: pick the selected playbook (falling back to
the top recommendation), then record the generator's output or the error. -/
def generate_commands_node (outcome : Except String CommandsGen) (now : String)
    (duration_ms : ℕ) (s : IncidentState) : IncidentState :=
  let s := { s with current_step := some "generate_commands" }
  let selection : Option (String × IncidentState) :=
    match pyTruthy s.selected_playbook_id with
    | some pid => some (pid, s)
    | none =>
      match (s.recommendations.getD []).head? with
      | some top => some (top.id, { s with selected_playbook_id := some top.id })
      | none => none
  match selection with
  | none => generate_commands_fail now "No playbook selected and no recommendations available" s
  | some (pid, s) =>
    match outcome with
    | .error e => generate_commands_fail now e s
    | .ok cmds =>
      let s := { s with commands := some cmds }
      add_history_entry now s "generate_commands" (some duration_ms)
        (some (.cmds pid cmds.commands.length))

/-- `execute_commands_node`: the simulated execution succeeds unless the
backend raises; on failure the error is logged (without an attempt number)
and the status set to `failed`. -/
def execute_commands_node (outcome : Except String Unit) (now : String)
    (duration_ms : ℕ) (s : IncidentState) : IncidentState :=
  let s := { s with current_step := some "execute" }
  match outcome with
  | .ok _ =>
    let commands_executed := (s.commands.getD ⟨[], none⟩).commands.length
    let er : ExecutionResult :=
      ⟨"success", some "Commands executed successfully (simulated)",
       some commands_executed, some true, some true, none⟩
    let s := { s with
      execution_result := some er
      execution_status := some "success"
      execution_timestamp := some now }
    add_history_entry now s "execute" (some duration_ms) (some (.exec er))
  | .error e =>
    let s := add_error now s "execute" e none
    { s with
      execution_result := some ⟨"failed", none, none, none, none, some e⟩
      execution_status := some "failed" }

/-- `generate_rca_node`.  The markdown body is presentational; it is
modelled by its header line (its exact text plays no role in any claim). -/
def generate_rca_node (now : String) (duration_ms : ℕ) (s : IncidentState) : IncidentState :=
  let s := { s with current_step := some "generate_rca" }
  let report := "# Root Cause Analysis: " ++ s.incident_id
  let s := { s with rca_report := some report, rca_generated_at := some now }
  add_history_entry now s "generate_rca" (some duration_ms) (some (.rca report.length))

/-- `human_review_node`: pass-through gate marking the state paused. -/
def human_review_node (now : String) (s : IncidentState) : IncidentState :=
  update_state_timestamp now
    { s with current_step := some "human_review", workflow_status := some "paused" }

/-! ## Graph driver (`app/langgraph_orchestrator/graph.py`)

The LangGraph `StateGraph` compiled with
`interrupt_before=["review_diagnosis", "review_commands"]` is modelled by a
fuelled driver: execute the current node, follow the (conditional) edge, and
halt *before* entering a node in the interrupt list, returning the pending
node as the checkpoint position.  `invoke(None)` on a paused thread resumes
by executing the pending node first. -/

inductive Node where
  | diagnose
  | review_diagnosis
  | recommend_pb
  | generate_commands
  | review_commands
  | execute
  | generate_rca
  deriving DecidableEq

/-- External collaborators of a workflow run.  The oracle / generator /
backend outcomes are indexed by the number of invocations of the
corresponding node so far (each call of the source can independently
succeed or raise). -/
structure WorkflowEnv where
  diagnose_outcome : ℕ → Except String DiagnosisResult
  hybrid : HybridEnv
  gen_commands_outcome : ℕ → Except String CommandsGen
  exec_outcome : ℕ → Except String Unit
  now : String
  duration_ms : ℕ

/-- Number of completed invocations of the node named `step` (each run of a
work node leaves exactly one history entry or one error entry). -/
def invocations_of (s : IncidentState) (step : String) : ℕ :=
  ((s.history.getD []).filter (fun h => h.step = step)).length
    + ((s.errors.getD []).filter (fun e => e.step = step)).length

/-- Execute one node and return the new state together with the next node
(`none` = the `END` node), following the edges and conditional-edge maps of
`build_incident_workflow_graph`. -/
def step_node (env : WorkflowEnv) (s : IncidentState) : Node → IncidentState × Option Node
  | .diagnose =>
    let s := diagnose_node (env.diagnose_outcome (invocations_of s "diagnose"))
      env.now env.duration_ms s
    (s, some .review_diagnosis)
  | .review_diagnosis =>
    let s := human_review_node env.now s
    match route_after_diagnosis_review s with
    | "approved" => (s, some .recommend_pb)
    | "retry" => (s, some .diagnose)
    | _ => (s, none)
  | .recommend_pb =>
    (recommend_node env.hybrid env.now env.duration_ms s, some .generate_commands)
  | .generate_commands =>
    let s := generate_commands_node
      (env.gen_commands_outcome (invocations_of s "generate_commands"))
      env.now env.duration_ms s
    (s, some .review_commands)
  | .review_commands =>
    let s := human_review_node env.now s
    match route_after_commands_review s with
    | "execute" => (s, some .execute)
    | "modify" => (s, some .generate_commands)
    | _ => (s, none)
  | .execute =>
    let s := execute_commands_node (env.exec_outcome (invocations_of s "execute"))
      env.now env.duration_ms s
    let (s, route) := route_after_execution s
    match route with
    | "rca" => (s, some .generate_rca)
    | "retry" => (s, some .execute)
    | _ => (s, none)
  | .generate_rca =>
    (generate_rca_node env.now env.duration_ms s, none)

/-- The `interrupt_before` list of `get_incident_workflow`. -/
def interrupt_before_nodes : List Node := [.review_diagnosis, .review_commands]

/-- Fuelled driver: run from node `n`, halting at `END` (pending `none`) or
before an interrupt node (pending = that node).  Exhausted fuel returns the
current position; all runs in this development use ample fuel. -/
def run_from (env : WorkflowEnv) : ℕ → IncidentState → Node → IncidentState × Option Node
  | 0, s, n => (s, some n)
  | fuel + 1, s, n =>
    let (s', next) := step_node env s n
    match next with
    | none => (s', none)
    | some m =>
      if m ∈ interrupt_before_nodes then (s', some m)
      else run_from env fuel s' m

/-- `app.invoke(initial_state, config)`: run from the entry point
`diagnose`. -/
def start_workflow (env : WorkflowEnv) (fuel : ℕ) (s : IncidentState) :
    IncidentState × Option Node :=
  run_from env fuel s .diagnose

/-- `app.invoke(None, config)` on a paused thread: resume by executing the
pending (interrupted) node. -/
def resume_workflow (env : WorkflowEnv) (fuel : ℕ) (s : IncidentState) (pending : Node) :
    IncidentState × Option Node :=
  run_from env fuel s pending

/-! ## API endpoints (`app/api/workflow_endpoints.py`)

A checkpoint is the persisted state together with the pending interrupt
position.  The two approval endpoints call `app.update_state` with their
values and then, when approved, `app.invoke(None)`; neither endpoint checks
which gate (if any) the workflow is paused at, nor whether it is paused at
all. -/

structure Checkpoint where
  state : IncidentState
  pending : Option Node
  deriving DecidableEq

/-- The approval dict built inline by both endpoints: every key is present
(possibly with a `None` value), unlike `add_approval`'s conditional keys. -/
def mk_endpoint_approval (now step : String) (approved : Bool)
    (approved_by feedback : Option String) : ApprovalEntry :=
  ⟨step, approved, now, approved_by, feedback⟩

/-- The `app.update_state` call of `approve_diagnosis`: set the flag and
feedback and *replace* the `approvals` channel with the one-element list. -/
def approve_diagnosis_update (now : String) (ck : Checkpoint) (approved : Bool)
    (feedback approved_by : Option String) : Checkpoint :=
  { ck with state :=
      { ck.state with
        diagnosis_approved := approved
        diagnosis_feedback := feedback
        approvals := some [mk_endpoint_approval now "diagnosis" approved approved_by feedback] } }

/-- The `app.update_state` call of `approve_commands`: set the flag and
feedback and append the new record to the current approvals. -/
def approve_commands_update (now : String) (ck : Checkpoint) (approved : Bool)
    (feedback approved_by : Option String) : Checkpoint :=
  let entry := mk_endpoint_approval now "commands" approved approved_by feedback
  { ck with state :=
      { ck.state with
        commands_approved := approved
        commands_feedback := feedback
        approvals := some (ck.state.approvals.getD [] ++ [entry]) } }

/-- `approve_diagnosis` endpoint: update, then resume when approved.
(Resuming a finished thread is modelled as a no-op.) -/
def approve_diagnosis (env : WorkflowEnv) (fuel : ℕ) (ck : Checkpoint) (approved : Bool)
    (feedback approved_by : Option String) : Checkpoint :=
  let ck := approve_diagnosis_update env.now ck approved feedback approved_by
  if approved then
    match ck.pending with
    | some n =>
      let r := resume_workflow env fuel ck.state n
      ⟨r.1, r.2⟩
    | none => ck
  else ck

/-- `approve_commands` endpoint: update, then resume when approved. -/
def approve_commands (env : WorkflowEnv) (fuel : ℕ) (ck : Checkpoint) (approved : Bool)
    (feedback approved_by : Option String) : Checkpoint :=
  let ck := approve_commands_update env.now ck approved feedback approved_by
  if approved then
    match ck.pending with
    | some n =>
      let r := resume_workflow env fuel ck.state n
      ⟨r.1, r.2⟩
    | none => ck
  else ck

/-! ## Component bound lemmas for the scoring engine -/

theorem cause_match_score_bounds (pb : Playbook) (rc : String) :
    0 ≤ cause_match_score pb rc ∧ cause_match_score pb rc ≤ 1 := by
  unfold cause_match_score
  split_ifs <;> norm_num

theorem risk_score_of_bounds (r : String) :
    0 ≤ risk_score_of r ∧ risk_score_of r ≤ 1 := by
  unfold risk_score_of
  split_ifs <;> norm_num

theorem cost_score_of_bounds (c : String) :
    0 ≤ cost_score_of c ∧ cost_score_of c ≤ 1 := by
  unfold cost_score_of
  split_ifs <;> norm_num

theorem time_to_score_bounds (t : String) :
    0 ≤ time_to_score t ∧ time_to_score t ≤ 1 := by
  simp only [time_to_score]
  split_ifs <;> norm_num

/-- C7: for any candidate playbook whose historical success rate lies in
[0,1], the weighted score `0.40·causeMatch + 0.25·riskScore + 0.15·speedScore
+ 0.10·costScore + 0.10·successRate` lies in [0,1] before the uncertainty
penalty; applying the penalty never increases the score, leaves it unchanged
unless the candidate is HIGH/CRITICAL risk and confidence < 0.7, and in that
case multiplies it by 0.7. -/
theorem score_playbook_bounds_and_penalty (pb : Playbook) (rc : String) (conf : ℚ)
    (h0 : 0 ≤ pb.typical_success_rate) (h1 : pb.typical_success_rate ≤ 1) :
    0 ≤ base_score pb rc ∧ base_score pb rc ≤ 1
    ∧ score_playbook pb rc conf ≤ base_score pb rc
    ∧ (¬ (conf < 0.7 ∧ (pb.risk_level = "HIGH" ∨ pb.risk_level = "CRITICAL")) →
        score_playbook pb rc conf = base_score pb rc)
    ∧ ((conf < 0.7 ∧ (pb.risk_level = "HIGH" ∨ pb.risk_level = "CRITICAL")) →
        score_playbook pb rc conf = base_score pb rc * 0.7) := by
  obtain ⟨hc0, hc1⟩ := cause_match_score_bounds pb rc
  obtain ⟨hr0, hr1⟩ := risk_score_of_bounds pb.risk_level
  obtain ⟨ht0, ht1⟩ := time_to_score_bounds pb.time_to_effect
  obtain ⟨hk0, hk1⟩ := cost_score_of_bounds pb.cost
  have hbase0 : 0 ≤ base_score pb rc := by
    unfold base_score; nlinarith
  have hbase1 : base_score pb rc ≤ 1 := by
    unfold base_score; nlinarith
  refine ⟨hbase0, hbase1, ?_, ?_, ?_⟩
  · simp only [score_playbook]
    split_ifs with hcond
    · nlinarith
    · exact le_rfl
  · intro hnot
    simp only [score_playbook]
    rw [if_neg hnot]
  · intro hcond
    simp only [score_playbook]
    rw [if_pos hcond]

/-- Witness for C7 at the QoS-shaping playbook, cause "congestion",
confidence 0.8. -/
theorem score_playbook_bounds_and_penalty_witness :
    (0 ≤ PLAYBOOK_QOS_SHAPING.typical_success_rate
      ∧ PLAYBOOK_QOS_SHAPING.typical_success_rate ≤ 1)
    ∧ (0 ≤ base_score PLAYBOOK_QOS_SHAPING "congestion"
      ∧ base_score PLAYBOOK_QOS_SHAPING "congestion" ≤ 1
      ∧ score_playbook PLAYBOOK_QOS_SHAPING "congestion" 0.8
          ≤ base_score PLAYBOOK_QOS_SHAPING "congestion"
      ∧ (¬ ((0.8 : ℚ) < 0.7 ∧ (PLAYBOOK_QOS_SHAPING.risk_level = "HIGH"
            ∨ PLAYBOOK_QOS_SHAPING.risk_level = "CRITICAL")) →
          score_playbook PLAYBOOK_QOS_SHAPING "congestion" 0.8
            = base_score PLAYBOOK_QOS_SHAPING "congestion")
      ∧ (((0.8 : ℚ) < 0.7 ∧ (PLAYBOOK_QOS_SHAPING.risk_level = "HIGH"
            ∨ PLAYBOOK_QOS_SHAPING.risk_level = "CRITICAL")) →
          score_playbook PLAYBOOK_QOS_SHAPING "congestion" 0.8
            = base_score PLAYBOOK_QOS_SHAPING "congestion" * 0.7)) :=
  ⟨⟨by norm_num [PLAYBOOK_QOS_SHAPING], by norm_num [PLAYBOOK_QOS_SHAPING]⟩,
   score_playbook_bounds_and_penalty PLAYBOOK_QOS_SHAPING "congestion" 0.8
     (by norm_num [PLAYBOOK_QOS_SHAPING]) (by norm_num [PLAYBOOK_QOS_SHAPING])⟩

/-! ## C8: the speed-factor bucketing -/

/-- The speed bucketing exactly as claim C8 states it, as a function of the
numeric duration in minutes (at most 2 min → 1.0, at most 10 → 0.8, at most
30 → 0.6, at most 2 h → 0.4, more → 0.2). -/
def spec_time_bucket (minutes : ℚ) : ℚ :=
  if minutes ≤ 2 then 1
  else if minutes ≤ 10 then 0.8
  else if minutes ≤ 30 then 0.6
  else if minutes ≤ 120 then 0.4
  else 0.2

/-- C8 counterexample: the catalog string "10 minutes" denotes a 10-minute
time-to-effect, for which the claim's bucketing gives 0.8, but the code's
digit-substring matching returns 1.0 (the string contains the digit "1"). -/
theorem time_to_score_ten_minutes_counterexample :
    time_to_score "10 minutes" = 1
    ∧ spec_time_bucket 10 = 0.8
    ∧ (1 : ℚ) ≠ 0.8 := by
  refine ⟨rfl, ?_, by norm_num⟩
  unfold spec_time_bucket
  norm_num

/-- The bucketing as amended: the function of the *string* computed by
digit-substring matching (contains "minute": "1"/"2" → 1.0, else "5"/"10" →
0.8, else "15"/"30" → 0.6, else 0.5; else contains "hour": "1"/"2" → 0.4,
else 0.2; otherwise 0.5), restated from the amended claim's words. -/
def time_to_score_amended_spec (time_str : String) : ℚ :=
  let t := strLower time_str
  if strContains t "minute" then
    if strContains t "1" || strContains t "2" then 1
    else if strContains t "5" || strContains t "10" then 0.8
    else if strContains t "15" || strContains t "30" then 0.6
    else 0.5
  else if strContains t "hour" then
    if strContains t "1" || strContains t "2" then 0.4 else 0.2
  else 0.5

/-- C8 (amended): the speed factor is the digit-substring bucketing of the
lowered time string described by `time_to_score_amended_spec`, with the
neutral default 0.5 for strings matching no bucket. -/
theorem time_to_score_amended (t : String) :
    time_to_score t = time_to_score_amended_spec t := rfl

/-! ## C9: the policy gate -/

/-- C9: when predicted latency exceeds the target, `check` reports
`ok = false` with a reason containing both the predicted value and the
target value; and for all inputs, `ok = true` iff `reasons` is empty. -/
theorem check_latency_violation (c : CandidateOption) (p : Policy) (pr : Prices)
    (h : p.latency_target_ms < c.pred_latency_ms) :
    (check c p pr).ok = false
    ∧ (∃ r ∈ (check c p pr).reasons, ∃ pre mid post : String,
        r = pre ++ toString c.pred_latency_ms ++ mid ++ toString p.latency_target_ms ++ post)
    ∧ ∀ (c' : CandidateOption) (p' : Policy) (pr' : Prices),
        ((check c' p' pr').ok = true ↔ (check c' p' pr').reasons = []) := by
  refine ⟨?_, ?_, ?_⟩
  · unfold check
    simp [h]
  · refine ⟨latency_violation_msg c.pred_latency_ms p.latency_target_ms, ?_, ?_⟩
    · unfold check
      simp [h]
    · exact ⟨"Predicted latency ", "ms exceeds target ", "ms", rfl⟩
  · intro c' p' pr'
    unfold check
    exact List.isEmpty_iff

def c120 : CandidateOption :=
  ⟨"qos_shaping", "qos_shaping", 10, 120, 0.4, "low", 0⟩

def policy50 : Policy := ⟨50, 25⟩

def prices0 : Prices := ⟨[]⟩

/-- Witness for C9: predicted latency 120 ms against target 50 ms. -/
theorem check_latency_violation_witness :
    policy50.latency_target_ms < c120.pred_latency_ms
    ∧ ((check c120 policy50 prices0).ok = false
      ∧ (∃ r ∈ (check c120 policy50 prices0).reasons, ∃ pre mid post : String,
          r = pre ++ toString c120.pred_latency_ms ++ mid
              ++ toString policy50.latency_target_ms ++ post)
      ∧ ∀ (c' : CandidateOption) (p' : Policy) (pr' : Prices),
          ((check c' p' pr').ok = true ↔ (check c' p' pr').reasons = [])) :=
  ⟨by norm_num [c120, policy50],
   check_latency_violation c120 policy50 prices0 (by norm_num [c120, policy50])⟩

/-! ## C10: the audit-trail helpers -/

/-- C10: each audit helper appends exactly one entry at the end of its list
(creating it when absent), and the only other field it changes is
`updated_at` — stated as an exact record-update equality against the prior
state. -/
theorem audit_helpers_append_only (s : IncidentState) (now step : String)
    (dur : Option ℕ) (res : Option ResultSnapshot) (approved : Bool)
    (ab fb : Option String) (err : String) (ra : Option ℕ) :
    add_history_entry now s step dur res =
      { s with history := some (s.history.getD [] ++ [⟨step, now, dur, res⟩])
               updated_at := some now }
    ∧ add_approval now s step approved ab fb =
      { s with approvals :=
                 some (s.approvals.getD [] ++ [⟨step, approved, now, pyTruthy ab, pyTruthy fb⟩])
               updated_at := some now }
    ∧ add_error now s step err ra =
      { s with errors := some (s.errors.getD [] ++ [⟨step, err, now, ra⟩])
               updated_at := some now } :=
  ⟨rfl, rfl, rfl⟩

/-! ## C5: the diagnose fallback after three oracle failures -/

/-- C5: starting from a state with the generic retry counter at 0, three
consecutive oracle failures on `diagnose` install the fallback diagnosis
(confidence 0.3 with an explanatory reasoning string) and reset the counter
to 0; and the graph edge after `diagnose` always proceeds to the
`review_diagnosis` gate, so the workflow never remains stuck at `diagnose`. -/
theorem diagnose_fallback_after_three_failures
    (s : IncidentState) (e1 e2 e3 n1 n2 n3 : String) (d1 d2 d3 : ℕ)
    (h : s.retry_count = 0) :
    (diagnose_node (.error e3) n3 d3
      (diagnose_node (.error e2) n2 d2
        (diagnose_node (.error e1) n1 d1 s))).diagnosis
      = some ⟨"unknown", 0.3,
          "AI diagnosis failed after 3 retries. Error: " ++ e3 ++ ". Using fallback.", []⟩
    ∧ (diagnose_node (.error e3) n3 d3
        (diagnose_node (.error e2) n2 d2
          (diagnose_node (.error e1) n1 d1 s))).diagnosis_confidence = some 0.3
    ∧ (diagnose_node (.error e3) n3 d3
        (diagnose_node (.error e2) n2 d2
          (diagnose_node (.error e1) n1 d1 s))).retry_count = 0
    ∧ ∀ (env : WorkflowEnv) (st : IncidentState),
        (step_node env st .diagnose).2 = some .review_diagnosis := by
  refine ⟨?_, ?_, ?_, fun env st => rfl⟩ <;>
    simp [diagnose_node, add_error, update_state_timestamp, h]

def sample_incident_data : IncidentData :=
  ⟨"RouterB-RouterC", 125, 45, 2.1, 0.1, [("RouterB-RouterC", 87.5)], [], some "high"⟩

/-- Witness for C5 at a freshly created workflow state. -/
theorem diagnose_fallback_after_three_failures_witness :
    (create_initial_state "INC-1" sample_incident_data none "medium" "T0").retry_count = 0
    ∧ ((diagnose_node (.error "timeout3") "T3" 5
        (diagnose_node (.error "timeout2") "T2" 5
          (diagnose_node (.error "timeout1") "T1" 5
            (create_initial_state "INC-1" sample_incident_data none "medium" "T0")))).diagnosis
        = some ⟨"unknown", 0.3,
            "AI diagnosis failed after 3 retries. Error: " ++ "timeout3" ++ ". Using fallback.", []⟩
      ∧ (diagnose_node (.error "timeout3") "T3" 5
          (diagnose_node (.error "timeout2") "T2" 5
            (diagnose_node (.error "timeout1") "T1" 5
              (create_initial_state "INC-1" sample_incident_data none "medium" "T0")))).diagnosis_confidence
        = some 0.3
      ∧ (diagnose_node (.error "timeout3") "T3" 5
          (diagnose_node (.error "timeout2") "T2" 5
            (diagnose_node (.error "timeout1") "T1" 5
              (create_initial_state "INC-1" sample_incident_data none "medium" "T0")))).retry_count = 0
      ∧ ∀ (env : WorkflowEnv) (st : IncidentState),
          (step_node env st .diagnose).2 = some .review_diagnosis) :=
  ⟨rfl, diagnose_fallback_after_three_failures
    (create_initial_state "INC-1" sample_incident_data none "medium" "T0")
    "timeout1" "timeout2" "timeout3" "T1" "T2" "T3" 5 5 5 rfl⟩

/-! ## C6: sortedness and stability of the ranking -/

theorem mem_insertDesc {z x : ScoredCandidate} {l : List ScoredCandidate} :
    z ∈ insertDesc x l ↔ z = x ∨ z ∈ l := by
  induction l with
  | nil => simp [insertDesc]
  | cons y ys ih =>
    simp only [insertDesc]
    split
    · simp [List.mem_cons]
    · simp only [List.mem_cons, ih]
      tauto

theorem insertDesc_pairwise (x : ScoredCandidate) (l : List ScoredCandidate)
    (hl : l.Pairwise fun a b => b.score ≤ a.score ∧ (a.score = b.score → a.idx < b.idx))
    (hx : ∀ y ∈ l, x.idx < y.idx) :
    (insertDesc x l).Pairwise
      fun a b => b.score ≤ a.score ∧ (a.score = b.score → a.idx < b.idx) := by
  induction l with
  | nil => simp [insertDesc]
  | cons y ys ih =>
    rw [List.pairwise_cons] at hl
    obtain ⟨hy, hys⟩ := hl
    simp only [insertDesc]
    split_ifs with hle
    · refine List.Pairwise.cons ?_ (List.Pairwise.cons hy hys)
      intro z hz
      rcases List.mem_cons.mp hz with rfl | hz'
      · exact ⟨hle, fun _ => hx z (List.mem_cons_self _ _)⟩
      · have hyz := hy z hz'
        exact ⟨le_trans hyz.1 hle, fun _ => hx z (List.mem_cons_of_mem _ hz')⟩
    · push_neg at hle
      refine List.Pairwise.cons ?_ (ih hys (fun y' hy' => hx y' (List.mem_cons_of_mem _ hy')))
      intro z hz
      rcases mem_insertDesc.mp hz with rfl | hz'
      · exact ⟨le_of_lt hle, fun heq => absurd (heq ▸ hle) (lt_irrefl _)⟩
      · exact hy z hz'

theorem mem_sortDesc {z : ScoredCandidate} {l : List ScoredCandidate} :
    z ∈ sortDesc l ↔ z ∈ l := by
  induction l with
  | nil => simp [sortDesc]
  | cons x xs ih =>
    simp [sortDesc, mem_insertDesc, ih]

theorem sortDesc_pairwise (l : List ScoredCandidate)
    (hidx : l.Pairwise fun a b => a.idx < b.idx) :
    (sortDesc l).Pairwise
      fun a b => b.score ≤ a.score ∧ (a.score = b.score → a.idx < b.idx) := by
  induction l with
  | nil => simp [sortDesc]
  | cons x xs ih =>
    rw [List.pairwise_cons] at hidx
    obtain ⟨hx, hxs⟩ := hidx
    exact insertDesc_pairwise x (sortDesc xs) (ih hxs)
      (fun y hy => hx y (mem_sortDesc.mp hy))

theorem with_scores_idx_bound (rc : String) (conf : ℚ) :
    ∀ (l : List Playbook) (i : ℕ), ∀ z ∈ with_scores rc conf l i, i ≤ z.idx := by
  intro l
  induction l with
  | nil => intro i z hz; simp [with_scores] at hz
  | cons p t ih =>
    intro i z hz
    simp only [with_scores, List.mem_cons] at hz
    rcases hz with rfl | hz'
    · exact le_refl _
    · exact le_trans (Nat.le_succ i) (ih (i + 1) z hz')

theorem with_scores_pairwise (rc : String) (conf : ℚ) :
    ∀ (l : List Playbook) (i : ℕ),
      (with_scores rc conf l i).Pairwise fun a b => a.idx < b.idx := by
  intro l
  induction l with
  | nil => intro i; simp [with_scores]
  | cons p t ih =>
    intro i
    simp only [with_scores]
    refine List.Pairwise.cons ?_ (ih (i + 1))
    intro z hz
    have hb := with_scores_idx_bound rc conf t (i + 1) z hz
    show i < z.idx
    omega

theorem mem_rank_with :
    ∀ {l : List ScoredCandidate} {r : ℕ} {o : RecOption},
      o ∈ rank_with l r → ∃ c ∈ l, o.score = c.score := by
  intro l
  induction l with
  | nil => intro r o ho; simp [rank_with] at ho
  | cons c t ih =>
    intro r o ho
    simp only [rank_with, List.mem_cons] at ho
    rcases ho with rfl | ho'
    · exact ⟨c, List.mem_cons_self _ _, rfl⟩
    · obtain ⟨c', hc', h⟩ := ih ho'
      exact ⟨c', List.mem_cons_of_mem _ hc', h⟩

theorem rank_with_pairwise :
    ∀ (l : List ScoredCandidate) (r : ℕ),
      (l.Pairwise fun a b => b.score ≤ a.score) →
      (rank_with l r).Pairwise fun a b => b.score ≤ a.score := by
  intro l
  induction l with
  | nil => intro r _; simp [rank_with]
  | cons c t ih =>
    intro r hl
    rw [List.pairwise_cons] at hl
    obtain ⟨hc, ht⟩ := hl
    simp only [rank_with]
    refine List.Pairwise.cons ?_ (ih (r + 1) ht)
    intro o ho
    obtain ⟨c', hc', hs⟩ := mem_rank_with ho
    show o.score ≤ c.score
    rw [hs]
    exact hc c' hc'

/-- C6: for every root cause and confidence, the ranked candidate list built
by `recommend` is sorted in descending score order, candidates with equal
scores keep their candidate-list (catalog declaration) order, and the
`options` output is exactly that list truncated to `top_n` and formatted in
order — hence also sorted by descending score. -/
theorem recommend_ranking_sorted_stable (rc : String) (conf : ℚ) (n : ℕ) :
    (ranked_candidates rc conf).Pairwise
      (fun a b => b.score ≤ a.score ∧ (a.score = b.score → a.idx < b.idx))
    ∧ (recommend rc conf n).options = rank_with ((ranked_candidates rc conf).take n) 1
    ∧ ((recommend rc conf n).options).Pairwise (fun a b => b.score ≤ a.score) := by
  have h1 := sortDesc_pairwise _ (with_scores_pairwise rc conf (candidates_for rc) 0)
  refine ⟨h1, rfl, ?_⟩
  have hmono : (ranked_candidates rc conf).Pairwise fun a b => b.score ≤ a.score :=
    h1.imp (fun h => h.1)
  have h2 : ((ranked_candidates rc conf).take n).Pairwise fun a b => b.score ≤ a.score :=
    List.Pairwise.sublist (List.take_sublist n _) hmono
  exact rank_with_pairwise _ 1 h2

/-! ## Length lemmas for the ranking pipeline -/

theorem length_insertDesc (x : ScoredCandidate) (l : List ScoredCandidate) :
    (insertDesc x l).length = l.length + 1 := by
  induction l with
  | nil => rfl
  | cons y ys ih =>
    simp only [insertDesc]
    split <;> simp [ih]

theorem length_sortDesc (l : List ScoredCandidate) :
    (sortDesc l).length = l.length := by
  induction l with
  | nil => rfl
  | cons x xs ih => simp [sortDesc, length_insertDesc, ih]

theorem length_rank_with (l : List ScoredCandidate) (r : ℕ) :
    (rank_with l r).length = l.length := by
  induction l generalizing r with
  | nil => rfl
  | cons c t ih => simp [rank_with, ih]

theorem length_with_scores (rc : String) (conf : ℚ) (l : List Playbook) (i : ℕ) :
    (with_scores rc conf l i).length = l.length := by
  induction l generalizing i with
  | nil => rfl
  | cons p t ih => simp [with_scores, ih]

/-! ## C4: hybrid fallback behaviour -/

/-- C4 (amended): when AI re-ranking is requested and the oracle is
unavailable (no client), or its call raises, or fewer than two rule-based
options exist, the engine returns the unmodified rule-based ranking
truncated to `top_n` with `fallback_used = should_use_ai`; but when the
oracle call succeeds and its reply fails to parse as JSON, the engine
instead returns an *empty* options list with `fallback_used = false`. -/
theorem hybrid_oracle_fallback
    (env : HybridEnv) (rc : String) (conf : ℚ) (n : ℕ) (ua : Option Bool) :
    ((env.client_available = false ∨ (∃ e : String, env.ai_call = Except.error e)
        ∨ (recommend rc conf 5).options.length ≤ 1) →
      hybrid_recommend env rc conf n ua
        = rule_only_result (recommend rc conf 5) n (ua.getD env.use_ai_config))
    ∧ (∀ text : String, ua.getD env.use_ai_config = true → env.client_available = true →
        1 < (recommend rc conf 5).options.length →
        env.ai_call = Except.ok text → env.parse text = none →
        (hybrid_recommend env rc conf n ua).options = []
        ∧ (hybrid_recommend env rc conf n ua).fallback_used = some false
        ∧ (hybrid_recommend env rc conf n ua).recommended = none) := by
  constructor
  · intro h
    rcases h with hcl | ⟨e, herr⟩ | hlen
    · simp [hybrid_recommend, hcl]
    · by_cases hcond : (ua.getD env.use_ai_config && env.client_available
        && decide (1 < (recommend rc conf 5).options.length)) = true
      · simp [hybrid_recommend, hcond, herr]
      · simp [hybrid_recommend, hcond]
    · have : ¬ (1 < (recommend rc conf 5).options.length) := by omega
      simp [hybrid_recommend, this]
  · intro text hsua hcl hlen hcall hparse
    have hcond : (ua.getD env.use_ai_config && env.client_available
        && decide (1 < (recommend rc conf 5).options.length)) = true := by
      simp [hsua, hcl, hlen]
    refine ⟨?_, ?_, ?_⟩ <;>
      simp [hybrid_recommend, hcond, hcall, extract_json_from_text, hparse,
        ai_rerank, ai_rerank_loop]

def env_oracle_down : HybridEnv :=
  ⟨true, true, Except.error "Bedrock timeout", fun _ => none⟩

/-- Witness for C4 (amended), part (a): an enabled engine whose oracle call
raises returns the truncated rule-based ranking with the fallback flag. -/
theorem hybrid_oracle_fallback_witness :
    (∃ e : String, env_oracle_down.ai_call = Except.error e)
    ∧ hybrid_recommend env_oracle_down "congestion" 0.8 3 (some true)
        = rule_only_result (recommend "congestion" 0.8 5) 3 true :=
  ⟨⟨"Bedrock timeout", rfl⟩, by
    have h := (hybrid_oracle_fallback env_oracle_down "congestion" 0.8 3 (some true)).1
      (Or.inr (Or.inl ⟨"Bedrock timeout", rfl⟩))
    simpa using h⟩

def env_parse_fail : HybridEnv :=
  ⟨true, true, Except.ok "I would start with QoS shaping.", fun _ => none⟩

/-- C4 counterexample: with AI enabled, the client available, two rule-based
options for cause "congestion", and a reply that fails to parse, the engine
returns an empty options list with `fallback_used = false` — not the
rule-based ranking with `fallback_used = true` that the claim requires. -/
theorem hybrid_parse_failure_counterexample :
    (recommend "congestion" (0.8 : ℚ) 5).options.length = 2
    ∧ (hybrid_recommend env_parse_fail "congestion" 0.8 3 (some true)).options = []
    ∧ (hybrid_recommend env_parse_fail "congestion" 0.8 3 (some true)).fallback_used = some false
    ∧ some false ≠ some true := by
  have hcand : (candidates_for "congestion").length = 2 := by decide
  have hopts : (recommend "congestion" (0.8 : ℚ) 5).options.length = 2 := by
    simp [recommend, length_rank_with, List.length_take, ranked_candidates,
      length_sortDesc, length_with_scores, hcand]
  have hcond : ((some true : Option Bool).getD env_parse_fail.use_ai_config
      && env_parse_fail.client_available
      && decide (1 < (recommend "congestion" (0.8 : ℚ) 5).options.length)) = true := by
    simp [hopts, env_parse_fail]
  have hres : hybrid_recommend env_parse_fail "congestion" (0.8 : ℚ) 3 (some true)
      = { root_cause := "congestion", confidence := 0.8, recommended := none, options := [],
          total_candidates := (recommend "congestion" (0.8 : ℚ) 5).total_candidates,
          ranking_method := some "hybrid (rule-based + AI)", fallback_used := some false } := by
    simp [hybrid_recommend, hcond, env_parse_fail, extract_json_from_text,
      ai_rerank, ai_rerank_loop]
    intro hle
    rw [hopts] at hle
    exact absurd hle (by norm_num)
  exact ⟨hopts, by rw [hres], by rw [hres], by decide⟩

/-! ## C1: the state returned by a fresh start -/

/-- C1 (amended): starting a workflow whose diagnose step succeeds runs the
entry step and interrupts *before* the `review_diagnosis` gate: the pending
checkpoint position is the gate, but the state returned (and seen by a
status query) still carries `current_step = "diagnose"` and
`workflow_status = "running"`, because the gate node has not executed. -/
theorem start_workflow_interrupts_before_gate
    (env : WorkflowEnv) (fuel : ℕ) (d : DiagnosisResult)
    (id : String) (data : IncidentData) (cb : Option String) (prio now0 : String)
    (h : env.diagnose_outcome 0 = Except.ok d) :
    (start_workflow env (fuel + 1) (create_initial_state id data cb prio now0)).2
        = some Node.review_diagnosis
    ∧ (start_workflow env (fuel + 1) (create_initial_state id data cb prio now0)).1.current_step
        = some "diagnose"
    ∧ (start_workflow env (fuel + 1) (create_initial_state id data cb prio now0)).1.workflow_status
        = some "running"
    ∧ (start_workflow env (fuel + 1) (create_initial_state id data cb prio now0)).1.diagnosis
        = some d := by
  refine ⟨?_, ?_, ?_, ?_⟩ <;>
    simp [start_workflow, run_from, step_node, invocations_of, h, diagnose_node,
      add_history_entry, update_state_timestamp, interrupt_before_nodes,
      create_initial_state]

def diag_ok : DiagnosisResult := ⟨"congestion", 0.9, "queueing delay on the hot path", []⟩

def hybrid_env_off : HybridEnv := ⟨false, false, Except.error "unused", fun _ => none⟩

def env_start : WorkflowEnv :=
  ⟨fun _ => Except.ok diag_ok, hybrid_env_off, fun _ => Except.ok ⟨[], none⟩,
   fun _ => Except.ok (), "T1", 5⟩

/-- Witness for C1 (amended) at a concrete environment and initial state. -/
theorem start_workflow_interrupts_before_gate_witness :
    env_start.diagnose_outcome 0 = Except.ok diag_ok
    ∧ ((start_workflow env_start (4 + 1) (create_initial_state "INC-001" sample_incident_data none "high" "T0")).2
        = some Node.review_diagnosis
      ∧ (start_workflow env_start (4 + 1) (create_initial_state "INC-001" sample_incident_data none "high" "T0")).1.current_step
        = some "diagnose"
      ∧ (start_workflow env_start (4 + 1) (create_initial_state "INC-001" sample_incident_data none "high" "T0")).1.workflow_status
        = some "running"
      ∧ (start_workflow env_start (4 + 1) (create_initial_state "INC-001" sample_incident_data none "high" "T0")).1.diagnosis
        = some diag_ok) :=
  ⟨rfl, start_workflow_interrupts_before_gate env_start 4 diag_ok
    "INC-001" sample_incident_data none "high" "T0" rfl⟩

/-- C1 counterexample: with a succeeding diagnose oracle, the state returned
by `start` has `workflow_status = "running"` and `current_step = "diagnose"`,
not the `"paused"` / `"review_diagnosis"` the claim requires. -/
theorem start_workflow_state_counterexample :
    env_start.diagnose_outcome 0 = Except.ok diag_ok
    ∧ (start_workflow env_start 5 (create_initial_state "INC-001" sample_incident_data none "high" "T0")).1.workflow_status
        = some "running"
    ∧ (start_workflow env_start 5 (create_initial_state "INC-001" sample_incident_data none "high" "T0")).1.current_step
        = some "diagnose"
    ∧ (some "running" : Option String) ≠ some "paused"
    ∧ (some "diagnose" : Option String) ≠ some "review_diagnosis" :=
  ⟨rfl, rfl, rfl, by decide, by decide⟩

/-! ## C2: approval submissions at the wrong gate -/

/-- C2 (amended): the approval endpoints perform no check of the current
gate, the paused status, or the incident's existence: every submission is
accepted and mutates the state — `approve_diagnosis` *replaces* the
approvals list with the single new record and sets the diagnosis
flag/feedback, `approve_commands` appends its record and sets the commands
flag/feedback; no other field and not the pending position changes, and no
error is possible. -/
theorem approval_endpoints_mutate_unconditionally
    (now : String) (ck : Checkpoint) (approved : Bool) (fb ab : Option String) :
    approve_diagnosis_update now ck approved fb ab =
      ⟨{ ck.state with
          diagnosis_approved := approved
          diagnosis_feedback := fb
          approvals := some [⟨"diagnosis", approved, now, ab, fb⟩] }, ck.pending⟩
    ∧ approve_commands_update now ck approved fb ab =
      ⟨{ ck.state with
          commands_approved := approved
          commands_feedback := fb
          approvals := some (ck.state.approvals.getD []
            ++ [⟨"commands", approved, now, ab, fb⟩]) }, ck.pending⟩ :=
  ⟨rfl, rfl⟩

def old_approval : ApprovalEntry :=
  ⟨"diagnosis", true, "T1", some "alice@example.com", some "diagnosis looks right"⟩

/-- A workflow currently paused at the `review_commands` gate, with one
approval already on record. -/
def ck_paused_at_commands : Checkpoint :=
  ⟨{ create_initial_state "INC-002" sample_incident_data none "high" "T0" with
      diagnosis := some diag_ok
      diagnosis_approved := true
      commands := some ⟨["conf t"], none⟩
      current_step := some "human_review"
      workflow_status := some "paused"
      approvals := some [old_approval] },
   some Node.review_commands⟩

/-- C2 counterexample: submitting a diagnosis approval while the workflow is
paused at the `review_commands` gate is accepted and rewrites the approvals
list (here even dropping the prior record), instead of failing without
mutation. -/
theorem approve_wrong_gate_counterexample :
    ck_paused_at_commands.pending = some Node.review_commands
    ∧ (approve_diagnosis_update "T2" ck_paused_at_commands false none none).state.approvals
        = some [⟨"diagnosis", false, "T2", none, none⟩]
    ∧ ck_paused_at_commands.state.approvals = some [old_approval]
    ∧ (some [(⟨"diagnosis", false, "T2", none, none⟩ : ApprovalEntry)]
        : Option (List ApprovalEntry)) ≠ some [old_approval] :=
  ⟨rfl, rfl, rfl, by decide⟩

/-! ## C3: repeated execution failure -/

/-- An environment whose execution backend raises on every attempt. -/
def env_exec_fail (msg now : String) : WorkflowEnv :=
  ⟨fun _ => Except.error "unused", hybrid_env_off, fun _ => Except.ok ⟨[], none⟩,
   fun _ => Except.error msg, now, 7⟩

/-- A workflow paused at `review_commands` whose commands were approved. -/
def approved_commands_state (id : String) (data : IncidentData) (now0 : String) : IncidentState :=
  { create_initial_state id data none "high" now0 with
    diagnosis_approved := true
    commands_approved := true
    commands := some ⟨["conf t"], none⟩
    current_step := some "human_review"
    workflow_status := some "paused" }

/-- C3 (amended): when the execution backend fails on every attempt, the
routing counter (read before being incremented) re-enters `execute` while it
is below 2, so after two consecutive failures the workflow is still headed
back into `execute`; it terminates only after the *third* failure, reaching
`END` with three `"execute"` error entries, none carrying an attempt number,
and with `workflow_status` never set to `"failed"` (it remains `"paused"`
from the resumed gate node). -/
theorem execute_retries_then_stops (msg nowE id now0 : String) (data : IncidentData) :
    (resume_workflow (env_exec_fail msg nowE) 3
        (approved_commands_state id data now0) Node.review_commands).2
      = some Node.execute
    ∧ (resume_workflow (env_exec_fail msg nowE) 10
        (approved_commands_state id data now0) Node.review_commands).2 = none
    ∧ (resume_workflow (env_exec_fail msg nowE) 10
        (approved_commands_state id data now0) Node.review_commands).1.errors
      = some [⟨"execute", msg, nowE, none⟩, ⟨"execute", msg, nowE, none⟩,
              ⟨"execute", msg, nowE, none⟩]
    ∧ (resume_workflow (env_exec_fail msg nowE) 10
        (approved_commands_state id data now0) Node.review_commands).1.workflow_status
      = some "paused"
    ∧ (resume_workflow (env_exec_fail msg nowE) 10
        (approved_commands_state id data now0) Node.review_commands).1.execution_retry_count = 2
    ∧ (resume_workflow (env_exec_fail msg nowE) 10
        (approved_commands_state id data now0) Node.review_commands).1.execution_status
      = some "failed" :=
  ⟨rfl, rfl, rfl, rfl, rfl, rfl⟩

/-- C3 counterexample: with a backend failing on every attempt, after two
consecutive failures the run has *not* terminated (it is headed back into
`execute`); the eventual terminal state carries 3 `"execute"` errors, not 2,
none with an attempt number, and its status is not `"failed"`. -/
theorem execute_two_failures_counterexample :
    (resume_workflow (env_exec_fail "backend unreachable" "T4") 3
        (approved_commands_state "INC-003" sample_incident_data "T0") Node.review_commands).2
      = some Node.execute
    ∧ (resume_workflow (env_exec_fail "backend unreachable" "T4") 10
        (approved_commands_state "INC-003" sample_incident_data "T0") Node.review_commands).2
      = none
    ∧ (((resume_workflow (env_exec_fail "backend unreachable" "T4") 10
        (approved_commands_state "INC-003" sample_incident_data "T0") Node.review_commands).1.errors.getD []).filter
          (fun e => e.step = "execute")).length = 3
    ∧ (3 : ℕ) ≠ 2
    ∧ (resume_workflow (env_exec_fail "backend unreachable" "T4") 10
        (approved_commands_state "INC-003" sample_incident_data "T0") Node.review_commands).1.workflow_status
      ≠ some "failed"
    ∧ ∀ e ∈ ((resume_workflow (env_exec_fail "backend unreachable" "T4") 10
        (approved_commands_state "INC-003" sample_incident_data "T0") Node.review_commands).1.errors.getD []).filter
          (fun e => e.step = "execute"), e.retry_attempt = none := by
  refine ⟨rfl, rfl, rfl, by decide, by decide, by decide⟩

end IncidentCopilot
